import Mathlib

/-!
Shallow embedding of the stream registry and session relay of the
WebRTC live-streaming signaling server (`server.js`,
`src/controllers/streamController.js`, `src/socket/webrtcHandlers`).

The registry is a JavaScript object `streams : streamId -> {hostId,
title, viewers}` where `viewers` is a `Map<socketId, viewerInfo>`; we
model both as insertion-ordered association lists with string keys.
Per-socket mutable fields (`isHost`, `streamId`, `isViewer`,
`currentStreamId`, `viewerInfo`) are modelled as a table from socket id
to a connection record; absent sockets read as the all-default record,
matching JavaScript's undefined fields being falsy.

Each handler returns the new server state together with the ordered
list of emissions (`socket.emit` / `io.to(..).emit` / `io.emit`).
-/

namespace WebRTCRelay

/-- Association-list lookup: first entry whose key matches, as in a JS
object / Map keyed by strings. -/
def alookup {α : Type} : List (String × α) → String → Option α
  | [], _ => none
  | (k, v) :: rest, key => if k = key then some v else alookup rest key

/-- Association-list write: replace the value at an existing key in
place, else append — the semantics of `obj[k] = v` / `Map.set`. -/
def aset {α : Type} : List (String × α) → String → α → List (String × α)
  | [], key, v => [(key, v)]
  | (k, v') :: rest, key, v =>
      if k = key then (k, v) :: rest else (k, v') :: aset rest key v

/-- Association-list delete: drop the entry at a key — the semantics of
`delete obj[k]` / `Map.delete`. -/
def aerase {α : Type} : List (String × α) → String → List (String × α)
  | [], _ => []
  | (k, v) :: rest, key =>
      if k = key then aerase rest key else (k, v) :: aerase rest key

/-- The keys of an association list, in order. -/
def keysOf {α : Type} (l : List (String × α)) : List String :=
  l.map Prod.fst

/-- Viewer metadata stored in a stream's `viewers` map
(`{ socketId, displayName, avatarUrl }`). -/
structure ViewerInfo where
  socketId : String
  displayName : Option String
  avatarUrl : Option String
deriving DecidableEq

/-- One registry entry: `{ hostId, title, viewers }`. -/
structure StreamEntry where
  hostId : String
  title : String
  viewers : List (String × ViewerInfo)
deriving DecidableEq

/-- The mutable per-socket fields the handlers read and write
(`socket.isHost`, `socket.streamId`, `socket.isViewer`,
`socket.currentStreamId`, `socket.viewerInfo`); all start undefined,
hence falsy. -/
structure Conn where
  isHost : Bool := false
  streamId : Option String := none
  isViewer : Bool := false
  currentStreamId : Option String := none
  viewerInfo : Option ViewerInfo := none
deriving DecidableEq

/-- Whole-server state: the `streams` registry plus every socket's
fields. -/
structure ServerState where
  streams : List (String × StreamEntry)
  sockets : List (String × Conn)
deriving DecidableEq

/-- The state at server start: no streams, no sockets. -/
def initState : ServerState := { streams := [], sockets := [] }

/-- Read a socket's fields; a socket that was never written reads as
the default record. -/
def getConn (st : ServerState) (sid : String) : Conn :=
  (alookup st.sockets sid).getD {}

/-- A single `streams` entry as exposed by `getPublicStreams`. -/
structure PublicEntry where
  streamId : String
  title : String
  hostId : String
deriving DecidableEq

/-- `getPublicStreams()`: streamId, title and hostId of every entry,
viewer detail excluded. -/
def getPublicStreams (st : ServerState) : List PublicEntry :=
  st.streams.map (fun p => { streamId := p.1, title := p.2.title, hostId := p.2.hostId })

/-- Events carried by an emission; payload fields are as the handlers
build them. -/
inductive Event : Type where
  | errorMessage (message : String)
  | streamCreated (streamId : String) (title : String)
  | streamAdded (streamId : String) (title : String)
  | viewerListUpdate (streamId : String) (count : Nat) (viewers : List ViewerInfo)
  | streamEnded (streamId : String)
  | streamRemoved (streamId : String)
  | viewerLeft (viewerId : String)
  | newViewer (viewerId : String)
  | receiveOffer (offer : String) (hostId : String)
  | receiveAnswer (answer : String) (viewerId : String)
  | iceCandidate (candidate : String) (senderId : String)
deriving DecidableEq

/-- An emission is either targeted at one connection id
(`io.to(id).emit` / `socket.emit`) or broadcast to all (`io.emit`). -/
inductive Emission : Type where
  | toSocket (target : String) (event : Event)
  | broadcast (event : Event)
deriving DecidableEq

/-- `displayName: v.displayName || null` — an empty string is falsy and
becomes null. -/
def orNull (s : Option String) : Option String :=
  match s with
  | some v => if v = "" then none else some v
  | none => none

/-- `sendViewerListUpdate(io, streamId)`: push the current viewer list
to the stream's host; silently does nothing if the stream is absent.
Reads only the global `streams` table, which is passed explicitly. -/
def sendViewerListUpdate (streams : List (String × StreamEntry)) (streamId : String) :
    List Emission :=
  match alookup streams streamId with
  | none => []
  | some stream =>
      [Emission.toSocket stream.hostId (Event.viewerListUpdate streamId
        stream.viewers.length
        (stream.viewers.map (fun p =>
          { socketId := p.2.socketId
            displayName := orNull p.2.displayName
            avatarUrl := orNull p.2.avatarUrl })))]

/-- The characters stripped by JavaScript `String.prototype.trim()`:
ECMAScript WhiteSpace — TAB, VT, FF, SP, NBSP, ZWNBSP/BOM and the
Unicode space separators (category Zs) — plus the LineTerminators LF,
CR, LS and PS. -/
def jsWhitespace (ch : Char) : Bool :=
  ch = ' ' || ch = '\t' || ch = '\n' || ch = '\r' ||
  ch.val = 0x0B || ch.val = 0x0C || ch.val = 0xA0 || ch.val = 0xFEFF ||
  ch.val = 0x1680 || (0x2000 ≤ ch.val && ch.val ≤ 0x200A) ||
  ch.val = 0x2028 || ch.val = 0x2029 || ch.val = 0x202F ||
  ch.val = 0x205F || ch.val = 0x3000

/-- JavaScript `String.prototype.trim()`: strip the ECMAScript
whitespace and line-terminator characters from both ends of the string,
modelled structurally on the character list so it evaluates on concrete
inputs. -/
def jsTrim (s : String) : String :=
  ⟨((s.data.dropWhile jsWhitespace).reverse.dropWhile jsWhitespace).reverse⟩

/-- Payload of `create-stream`: `{streamId, title}`; a missing or empty
streamId is the falsy case, a missing title is `none`. -/
structure CreatePayload where
  streamId : String
  title : Option String
deriving DecidableEq

/-- `title && title.trim() ? title.trim() : trimmedId`: the resolved
title of a create request — the trimmed title unless the title is
missing, empty, or whitespace-only, in which case the trimmed id. -/
def createTitle (p : CreatePayload) : String :=
  match p.title with
  | some t => if t ≠ "" ∧ jsTrim t ≠ "" then jsTrim t else jsTrim p.streamId
  | none => jsTrim p.streamId

/-- `createStream(io, socket, {streamId, title})`. Rejects a falsy
streamId, trims id and title, overwrites any entry at the trimmed key,
and marks the caller as host of it. -/
def createStream (st : ServerState) (sid : String) (p : CreatePayload) :
    ServerState × List Emission :=
  if p.streamId = "" then
    (st, [Emission.toSocket sid (Event.errorMessage "Stream ID is required.")])
  else
    let trimmedId := jsTrim p.streamId
    let streamTitle := createTitle p
    let c := getConn st sid
    let st1 : ServerState :=
      { streams := aset st.streams trimmedId
          { hostId := sid, title := streamTitle, viewers := [] }
        sockets := aset st.sockets sid
          { c with isHost := true, streamId := some trimmedId } }
    (st1,
      [Emission.toSocket sid (Event.streamCreated trimmedId streamTitle),
       Emission.broadcast (Event.streamAdded trimmedId streamTitle)]
      ++ sendViewerListUpdate st1.streams trimmedId)

/-- `endStream(io, socket)`: the guard `!socket.isHost ||
!socket.streamId` returns early when the caller is not a host or its
binding is absent or the falsy empty string; otherwise, if the bound
stream still exists, notifies each viewer, deletes the entry,
broadcasts removal, and clears the caller's host fields. -/
def endStream (st : ServerState) (sid : String) : ServerState × List Emission :=
  let c := getConn st sid
  match c.streamId with
  | none => (st, [])
  | some streamId =>
      if c.isHost = true ∧ streamId ≠ "" then
        match alookup st.streams streamId with
        | none => (st, [])
        | some stream =>
            ({ streams := aerase st.streams streamId
               sockets := aset st.sockets sid
                 { c with streamId := none, isHost := false } },
             stream.viewers.map
               (fun p => Emission.toSocket p.1 (Event.streamEnded streamId))
             ++ [Emission.broadcast (Event.streamRemoved streamId)])
      else (st, [])

/-- Optional user metadata sent with `viewer-join-stream`. -/
structure UserMeta where
  displayName : Option String
  avatarUrl : Option String
deriving DecidableEq

/-- Payload of `viewer-join-stream`: `{streamId, user}`. -/
structure JoinPayload where
  streamId : String
  user : Option UserMeta
deriving DecidableEq

/-- The viewerInfo record the join handler builds:
`user && user.displayName ? String(user.displayName) : null`, an empty
string being falsy. -/
def mkViewerInfo (sid : String) (user : Option UserMeta) : ViewerInfo :=
  { socketId := sid
    displayName :=
      match user with
      | some u => orNull u.displayName
      | none => none
    avatarUrl :=
      match user with
      | some u => orNull u.avatarUrl
      | none => none }

/-- `viewerJoinStream(io, socket, {streamId, user})`: NotFound error if
the raw streamId is absent; otherwise the guard
`socket.currentStreamId && socket.currentStreamId !== streamId`
detaches the caller from a different previously watched stream — the
falsy empty string skips the detach — then records the metadata (last
write wins), binds the viewer role, and notifies the host. -/
def viewerJoinStream (st : ServerState) (sid : String) (p : JoinPayload) :
    ServerState × List Emission :=
  match alookup st.streams p.streamId with
  | none =>
      (st, [Emission.toSocket sid
        (Event.errorMessage "Stream not found or has ended.")])
  | some _ =>
      let c := getConn st sid
      let detach : ServerState × List Emission :=
        match c.currentStreamId with
        | some oldId =>
            if oldId ≠ "" ∧ oldId ≠ p.streamId then
              match alookup st.streams oldId with
              | some oldStream =>
                  let oldEntry := { oldStream with viewers := aerase oldStream.viewers sid }
                  let st1 : ServerState :=
                    { st with streams := aset st.streams oldId oldEntry }
                  (st1,
                    [Emission.toSocket oldStream.hostId (Event.viewerLeft sid)]
                    ++ sendViewerListUpdate st1.streams oldId)
              | none => (st, [])
            else (st, [])
        | none => (st, [])
      let st1 := detach.1
      match alookup st1.streams p.streamId with
      | none => (st1, detach.2)
      | some stream =>
          let vInfo := mkViewerInfo sid p.user
          let st2 : ServerState :=
            { streams := aset st1.streams p.streamId
                { stream with viewers := aset stream.viewers sid vInfo }
              sockets := aset st1.sockets sid
                { c with currentStreamId := some p.streamId,
                         isViewer := true, viewerInfo := some vInfo } }
          (st2,
            detach.2
            ++ [Emission.toSocket stream.hostId (Event.newViewer sid)]
            ++ sendViewerListUpdate st2.streams p.streamId)

/-- `viewerLeaveStream(io, socket)`: the guard `!socket.currentStreamId`
returns early when the watched-stream field is absent or the falsy
empty string, clearing nothing; otherwise removes the caller from the
watched stream (if it still exists), notifies its host, and clears the
viewer fields. -/
def viewerLeaveStream (st : ServerState) (sid : String) : ServerState × List Emission :=
  let c := getConn st sid
  match c.currentStreamId with
  | none => (st, [])
  | some streamId =>
      if streamId ≠ "" then
        let step : ServerState × List Emission :=
          match alookup st.streams streamId with
          | some stream =>
              let entry := { stream with viewers := aerase stream.viewers sid }
              let st1 : ServerState :=
                { st with streams := aset st.streams streamId entry }
              (st1,
                [Emission.toSocket stream.hostId (Event.viewerLeft sid)]
                ++ sendViewerListUpdate st1.streams streamId)
          | none => (st, [])
        let cLeft := { c with currentStreamId := none, isViewer := false,
                              viewerInfo := none }
        ({ step.1 with sockets := aset step.1.sockets sid cLeft }, step.2)
      else (st, [])

/-- First half of `handleDisconnect`: `if (socket.isHost &&
socket.streamId)` — skipped when the binding is absent or the falsy
empty string; otherwise notify the stream's viewers, delete the entry
and broadcast its removal.  Reads the socket fields from the given
`Conn` and touches only the `streams` table. -/
def disconnectHostCleanup (streams : List (String × StreamEntry)) (c : Conn) :
    List (String × StreamEntry) × List Emission :=
  match c.streamId with
  | none => (streams, [])
  | some streamId =>
      if c.isHost = true ∧ streamId ≠ "" then
        match alookup streams streamId with
        | some stream =>
            (aerase streams streamId,
             stream.viewers.map
               (fun p => Emission.toSocket p.1 (Event.streamEnded streamId))
             ++ [Emission.broadcast (Event.streamRemoved streamId)])
        | none => (streams, [])
      else (streams, [])

/-- Second half of `handleDisconnect`: `if (socket.isViewer &&
socket.currentStreamId)` — skipped when the watched-stream field is
absent or the falsy empty string; otherwise remove the socket from the
watched stream and notify that stream's host. -/
def disconnectViewerCleanup (streams : List (String × StreamEntry)) (sid : String)
    (c : Conn) : List (String × StreamEntry) × List Emission :=
  match c.currentStreamId with
  | none => (streams, [])
  | some streamId =>
      if c.isViewer = true ∧ streamId ≠ "" then
        match alookup streams streamId with
        | some stream =>
            let entry := { stream with viewers := aerase stream.viewers sid }
            (aset streams streamId entry,
             [Emission.toSocket stream.hostId (Event.viewerLeft sid)]
             ++ sendViewerListUpdate (aset streams streamId entry) streamId)
        | none => (streams, [])
      else (streams, [])

/-- `handleDisconnect(io, socket)`: host cleanup (notify viewers,
delete the stream, broadcast removal) followed by viewer cleanup
(remove from the watched stream, notify its host); the socket's fields
are read once and never rewritten since the socket is gone. -/
def handleDisconnect (st : ServerState) (sid : String) : ServerState × List Emission :=
  let c := getConn st sid
  let hostStep := disconnectHostCleanup st.streams c
  let viewStep := disconnectViewerCleanup hostStep.1 sid c
  ({ st with streams := viewStep.1 }, hostStep.2 ++ viewStep.2)

/-- `socket.on('host-offer')`: forward the offer verbatim to the named
viewer together with the sender's id; no state is read or written. -/
def hostOffer (st : ServerState) (sid : String) (offer : String) (viewerId : String) :
    ServerState × List Emission :=
  (st, [Emission.toSocket viewerId (Event.receiveOffer offer sid)])

/-- `socket.on('viewer-answer')`: forward the answer verbatim to the
named host together with the sender's id; no state is read or written. -/
def viewerAnswer (st : ServerState) (sid : String) (answer : String) (hostId : String) :
    ServerState × List Emission :=
  (st, [Emission.toSocket hostId (Event.receiveAnswer answer sid)])

/-- `socket.on('ice-candidate')`: forward the candidate verbatim to the
named target together with the sender's id; no state is read or
written. -/
def iceCandidate (st : ServerState) (sid : String) (candidate : String) (targetId : String) :
    ServerState × List Emission :=
  (st, [Emission.toSocket targetId (Event.iceCandidate candidate sid)])

/-- One inbound client event, tagged with its socket id. -/
inductive Op : Type where
  | create (sid : String) (p : CreatePayload)
  | endS (sid : String)
  | join (sid : String) (p : JoinPayload)
  | leave (sid : String)
  | disconnect (sid : String)
deriving DecidableEq

/-- Dispatch one event to its handler. -/
def applyOp (st : ServerState) : Op → ServerState × List Emission
  | Op.create sid p => createStream st sid p
  | Op.endS sid => endStream st sid
  | Op.join sid p => viewerJoinStream st sid p
  | Op.leave sid => viewerLeaveStream st sid
  | Op.disconnect sid => handleDisconnect st sid

/-- Run a sequence of events from a given state, discarding emissions. -/
def runFrom (st : ServerState) : List Op → ServerState
  | [] => st
  | op :: rest => runFrom (applyOp st op).1 rest

/-- Run a sequence of events from server start. -/
def run (ops : List Op) : ServerState :=
  runFrom initState ops

/-- Registry invariant: if a connection id is a key of the viewer map
of a stream whose id is non-empty, that connection's `currentStreamId`
names exactly that stream.  Membership in the viewer set of at most one
non-empty-id stream follows, since `currentStreamId` is a single value.
The empty-id stream is excluded: its members' falsy `currentStreamId`
skips the detach on a later join, so they can stay behind in it. -/
def MemCur (st : ServerState) : Prop :=
  ∀ k s v, alookup st.streams k = some s → v ∈ keysOf s.viewers → k ≠ "" →
    (getConn st v).currentStreamId = some k

/-- An event that is not a `create-stream` request. -/
def Op.nonCreate : Op → Bool
  | Op.create _ _ => false
  | _ => true

/-- Orphan invariant for stream `A` with recorded host `c`: no
connection's host binding names `A`, yet `A` is present in the registry
with host id `c`.  Only a create request can re-bind a connection to
`A` or overwrite the entry, so every other event preserves this. -/
def OrphanInv (st : ServerState) (A c : String) : Prop :=
  (∀ v, (getConn st v).streamId ≠ some A) ∧
  ∃ e', alookup st.streams A = some e' ∧ e'.hostId = c

/-- Concrete trace: host `h` creates stream `s`, then sends a
`viewer-join-stream` for its own stream. -/
def hostSelfJoinOps : List Op :=
  [Op.create "h" { streamId := "s", title := none },
   Op.join "h" { streamId := "s", user := none }]

/-- Concrete trace: connection `h` creates stream `a`, then creates
stream `b` without ending `a`. -/
def doubleCreateOps : List Op :=
  [Op.create "h" { streamId := "a", title := none },
   Op.create "h" { streamId := "b", title := none }]

/-- Concrete trace: `g` hosts stream `b`; `h` hosts stream `a` and then
joins `b` as a viewer, so `h` holds the host and viewer roles at once. -/
def bothRolesOps : List Op :=
  [Op.create "g" { streamId := "b", title := none },
   Op.create "h" { streamId := "a", title := none },
   Op.join "h" { streamId := "b", user := none }]

/-- Concrete state: `h` created a stream with the whitespace-padded id
`" a "`, which is stored under the trimmed key `"a"`. -/
def padCreateState : ServerState :=
  (createStream initState "h" { streamId := " a ", title := none }).1

/-- Concrete trace: host `h` creates stream `s` and viewer `v` joins it. -/
def createJoinOps : List Op :=
  [Op.create "h" { streamId := "s", title := none },
   Op.join "v" { streamId := "s", user := none }]

/-- The registry entry for stream `s` after `createJoinOps`. -/
def sEntry : StreamEntry :=
  { hostId := "h", title := "s", viewers := [("v", mkViewerInfo "v" none)] }

/-- A rejoin payload for stream `s` carrying fresh display metadata. -/
def joinAgainPayload : JoinPayload :=
  { streamId := "s", user := some { displayName := some "Ann", avatarUrl := none } }

/-- Concrete trace: connection `h` creates stream `a` and nothing else
happens. -/
def createAOps : List Op := [Op.create "h" { streamId := "a", title := none }]

/-- Concrete create-free tail trace: a viewer joins the orphaned stream
`a`, the old host ends its current stream, and the viewer disconnects
and leaves. -/
def orphanTailOps : List Op :=
  [Op.join "v" { streamId := "a", user := none }, Op.endS "h",
   Op.disconnect "v", Op.leave "v"]

/-- Concrete trace: `g` creates the whitespace-only stream (stored
under the empty-string key), `k` creates stream `x`, and viewer `v`
joins the empty-id stream and then `x`; the falsy empty
`currentStreamId` skips the detach, so `v` stays in both viewer sets. -/
def doubleMembershipOps : List Op :=
  [Op.create "g" { streamId := " ", title := none },
   Op.create "k" { streamId := "x", title := none },
   Op.join "v" { streamId := "", user := none },
   Op.join "v" { streamId := "x", user := none }]

/-- Concrete trace: `h2` creates stream `a`; `h1` overwrites `a`
(leaving `h2`'s stale host binding in place) and then creates `b`. -/
def overwriteOps : List Op :=
  [Op.create "h2" { streamId := "a", title := none },
   Op.create "h1" { streamId := "a", title := none },
   Op.create "h1" { streamId := "b", title := none }]

/-! ### Association-list lemmas -/

theorem keysOf_nil {α : Type} : keysOf ([] : List (String × α)) = [] := rfl

theorem keysOf_cons {α : Type} (k : String) (v : α) (rest : List (String × α)) :
    keysOf ((k, v) :: rest) = k :: keysOf rest := rfl

theorem alookup_aset {α : Type} (l : List (String × α)) (a b : String) (x : α) :
    alookup (aset l a x) b = if a = b then some x else alookup l b := by
  induction l with
  | nil => by_cases hab : a = b <;> simp [aset, alookup, hab]
  | cons p rest ih =>
      obtain ⟨k, v⟩ := p
      by_cases hka : k = a
      · subst hka
        by_cases hb : k = b <;> simp [aset, alookup, hb]
      · by_cases hb : k = b
        · subst hb
          have hab : ¬ a = k := fun h => hka h.symm
          simp [aset, alookup, hka, hab]
        · simp [aset, alookup, hka, hb, ih]

theorem alookup_aerase {α : Type} (l : List (String × α)) (a b : String) :
    alookup (aerase l a) b = if a = b then none else alookup l b := by
  induction l with
  | nil => by_cases hab : a = b <;> simp [aerase, alookup, hab]
  | cons p rest ih =>
      obtain ⟨k, v⟩ := p
      by_cases hka : k = a
      · subst hka
        by_cases hb : k = b
        · subst hb
          simp [aerase, alookup, ih]
        · simp [aerase, alookup, hb, ih]
      · by_cases hb : k = b
        · subst hb
          have hab : ¬ a = k := fun h => hka h.symm
          simp [aerase, alookup, hka, hab]
        · simp [aerase, alookup, hka, hb, ih]

theorem mem_keysOf_aset {α : Type} (l : List (String × α)) (a b : String) (x : α) :
    b ∈ keysOf (aset l a x) ↔ b = a ∨ b ∈ keysOf l := by
  induction l with
  | nil => simp [aset, keysOf_cons, keysOf_nil]
  | cons p rest ih =>
      obtain ⟨k, v⟩ := p
      by_cases hka : k = a
      · subst hka
        simp [aset, keysOf_cons]
      · simp [aset, hka, keysOf_cons, ih]
        tauto

theorem mem_keysOf_aerase {α : Type} (l : List (String × α)) (a b : String) :
    b ∈ keysOf (aerase l a) ↔ b ∈ keysOf l ∧ b ≠ a := by
  induction l with
  | nil => simp [aerase, keysOf_nil]
  | cons p rest ih =>
      obtain ⟨k, v⟩ := p
      by_cases hka : k = a
      · subst hka
        simp [aerase, ih, keysOf_cons]
        tauto
      · simp [aerase, hka, keysOf_cons, ih]
        constructor
        · rintro (rfl | ⟨h1, h2⟩)
          · exact ⟨Or.inl rfl, hka⟩
          · exact ⟨Or.inr h1, h2⟩
        · rintro ⟨rfl | h1, h2⟩
          · exact Or.inl rfl
          · exact Or.inr ⟨h1, h2⟩

theorem mem_keysOf_iff_alookup {α : Type} (l : List (String × α)) (b : String) :
    b ∈ keysOf l ↔ (alookup l b).isSome := by
  induction l with
  | nil => simp [keysOf_nil, alookup]
  | cons p rest ih =>
      obtain ⟨k, v⟩ := p
      by_cases hb : k = b
      · subst hb
        simp [keysOf_cons, alookup]
      · have hbk : ¬ b = k := fun h => hb h.symm
        simp [keysOf_cons, alookup, hb, hbk, ih]

theorem getConn_mk (strms : List (String × StreamEntry)) (socks : List (String × Conn))
    (v : String) :
    getConn { streams := strms, sockets := socks } v = (alookup socks v).getD {} := rfl

theorem getConn_aset (strms : List (String × StreamEntry)) (socks : List (String × Conn))
    (sid : String) (c' : Conn) (v : String) :
    getConn { streams := strms, sockets := aset socks sid c' } v =
      if sid = v then c' else (alookup socks v).getD {} := by
  rw [getConn_mk, alookup_aset]
  by_cases h : sid = v <;> simp [h]

/-! ### Handler characterizations -/

theorem createStream_falsy (st : ServerState) (sid : String) (t : Option String) :
    createStream st sid { streamId := "", title := t } =
      (st, [Emission.toSocket sid (Event.errorMessage "Stream ID is required.")]) := by
  simp [createStream]

theorem createStream_spec (st : ServerState) (sid : String) (p : CreatePayload)
    (hne : p.streamId ≠ "") :
    createStream st sid p =
      ({ streams := aset st.streams (jsTrim p.streamId)
           { hostId := sid, title := createTitle p, viewers := [] }
         sockets := aset st.sockets sid
           { getConn st sid with isHost := true,
                                 streamId := some (jsTrim p.streamId) } },
       [Emission.toSocket sid (Event.streamCreated (jsTrim p.streamId) (createTitle p)),
        Emission.broadcast (Event.streamAdded (jsTrim p.streamId) (createTitle p))]
       ++ sendViewerListUpdate
            (aset st.streams (jsTrim p.streamId)
              { hostId := sid, title := createTitle p, viewers := [] })
            (jsTrim p.streamId)) := by
  simp [createStream, hne]

theorem endStream_not_host (st : ServerState) (sid : String)
    (h : (getConn st sid).isHost = false) :
    endStream st sid = (st, []) := by
  cases hs : (getConn st sid).streamId <;> simp [endStream, h, hs]

theorem endStream_no_binding (st : ServerState) (sid : String)
    (h : (getConn st sid).streamId = none) :
    endStream st sid = (st, []) := by
  simp [endStream, h]

theorem endStream_empty_binding (st : ServerState) (sid : String)
    (h : (getConn st sid).streamId = some "") :
    endStream st sid = (st, []) := by
  simp [endStream, h]

theorem endStream_no_entry (st : ServerState) (sid A : String)
    (hsid : (getConn st sid).streamId = some A)
    (hAne : A ≠ "")
    (h : alookup st.streams A = none) :
    endStream st sid = (st, []) := by
  by_cases hh : (getConn st sid).isHost <;> simp [endStream, hsid, hAne, h, hh]

theorem endStream_spec (st : ServerState) (sid A : String) (str : StreamEntry)
    (hh : (getConn st sid).isHost = true)
    (hsid : (getConn st sid).streamId = some A)
    (hAne : A ≠ "")
    (hstr : alookup st.streams A = some str) :
    endStream st sid =
      ({ streams := aerase st.streams A
         sockets := aset st.sockets sid
           { getConn st sid with streamId := none, isHost := false } },
       str.viewers.map (fun q => Emission.toSocket q.1 (Event.streamEnded A))
       ++ [Emission.broadcast (Event.streamRemoved A)]) := by
  simp [endStream, hh, hsid, hAne, hstr]

theorem leaveStream_no_cur (st : ServerState) (sid : String)
    (h : (getConn st sid).currentStreamId = none) :
    viewerLeaveStream st sid = (st, []) := by
  simp [viewerLeaveStream, h]

theorem leaveStream_empty_cur (st : ServerState) (sid : String)
    (h : (getConn st sid).currentStreamId = some "") :
    viewerLeaveStream st sid = (st, []) := by
  simp [viewerLeaveStream, h]

theorem leaveStream_spec (st : ServerState) (sid S : String) (str : StreamEntry)
    (hcur : (getConn st sid).currentStreamId = some S)
    (hSne : S ≠ "")
    (hstr : alookup st.streams S = some str) :
    viewerLeaveStream st sid =
      ({ streams := aset st.streams S ({ str with viewers := aerase str.viewers sid })
         sockets := aset st.sockets sid
           ({ getConn st sid with currentStreamId := none, isViewer := false,
                                  viewerInfo := none }) },
       [Emission.toSocket str.hostId (Event.viewerLeft sid)]
       ++ sendViewerListUpdate
            (aset st.streams S ({ str with viewers := aerase str.viewers sid })) S) := by
  simp [viewerLeaveStream, hcur, hSne, hstr]

theorem leaveStream_missing (st : ServerState) (sid S : String)
    (hcur : (getConn st sid).currentStreamId = some S)
    (hSne : S ≠ "")
    (hstr : alookup st.streams S = none) :
    viewerLeaveStream st sid =
      ({ streams := st.streams
         sockets := aset st.sockets sid
           ({ getConn st sid with currentStreamId := none, isViewer := false,
                                  viewerInfo := none }) },
       []) := by
  simp [viewerLeaveStream, hcur, hSne, hstr]

theorem joinStream_notFound (st : ServerState) (sid : String) (p : JoinPayload)
    (h : alookup st.streams p.streamId = none) :
    viewerJoinStream st sid p =
      (st, [Emission.toSocket sid
        (Event.errorMessage "Stream not found or has ended.")]) := by
  simp [viewerJoinStream, h]

theorem joinStream_rejoin (st : ServerState) (sid : String) (p : JoinPayload)
    (str : StreamEntry)
    (hstr : alookup st.streams p.streamId = some str)
    (hcur : (getConn st sid).currentStreamId = some p.streamId) :
    viewerJoinStream st sid p =
      ({ streams := aset st.streams p.streamId
           ({ str with viewers := aset str.viewers sid (mkViewerInfo sid p.user) })
         sockets := aset st.sockets sid
           ({ getConn st sid with currentStreamId := some p.streamId,
                                  isViewer := true,
                                  viewerInfo := some (mkViewerInfo sid p.user) }) },
       [Emission.toSocket str.hostId (Event.newViewer sid)]
       ++ sendViewerListUpdate
            (aset st.streams p.streamId
              ({ str with viewers := aset str.viewers sid (mkViewerInfo sid p.user) }))
            p.streamId) := by
  simp [viewerJoinStream, hstr, hcur]

theorem joinStream_fresh (st : ServerState) (sid : String) (p : JoinPayload)
    (str : StreamEntry)
    (hstr : alookup st.streams p.streamId = some str)
    (hcur : (getConn st sid).currentStreamId = none) :
    viewerJoinStream st sid p =
      ({ streams := aset st.streams p.streamId
           ({ str with viewers := aset str.viewers sid (mkViewerInfo sid p.user) })
         sockets := aset st.sockets sid
           ({ getConn st sid with currentStreamId := some p.streamId,
                                  isViewer := true,
                                  viewerInfo := some (mkViewerInfo sid p.user) }) },
       [Emission.toSocket str.hostId (Event.newViewer sid)]
       ++ sendViewerListUpdate
            (aset st.streams p.streamId
              ({ str with viewers := aset str.viewers sid (mkViewerInfo sid p.user) }))
            p.streamId) := by
  simp [viewerJoinStream, hstr, hcur]

theorem joinStream_cur_empty (st : ServerState) (sid : String) (p : JoinPayload)
    (str : StreamEntry)
    (hstr : alookup st.streams p.streamId = some str)
    (hcur : (getConn st sid).currentStreamId = some "") :
    viewerJoinStream st sid p =
      ({ streams := aset st.streams p.streamId
           ({ str with viewers := aset str.viewers sid (mkViewerInfo sid p.user) })
         sockets := aset st.sockets sid
           ({ getConn st sid with currentStreamId := some p.streamId,
                                  isViewer := true,
                                  viewerInfo := some (mkViewerInfo sid p.user) }) },
       [Emission.toSocket str.hostId (Event.newViewer sid)]
       ++ sendViewerListUpdate
            (aset st.streams p.streamId
              ({ str with viewers := aset str.viewers sid (mkViewerInfo sid p.user) }))
            p.streamId) := by
  simp [viewerJoinStream, hstr, hcur]

theorem joinStream_switch_missing (st : ServerState) (sid : String) (p : JoinPayload)
    (str : StreamEntry) (old : String)
    (hstr : alookup st.streams p.streamId = some str)
    (hcur : (getConn st sid).currentStreamId = some old)
    (hone : old ≠ "")
    (hne : old ≠ p.streamId)
    (hold : alookup st.streams old = none) :
    viewerJoinStream st sid p =
      ({ streams := aset st.streams p.streamId
           ({ str with viewers := aset str.viewers sid (mkViewerInfo sid p.user) })
         sockets := aset st.sockets sid
           ({ getConn st sid with currentStreamId := some p.streamId,
                                  isViewer := true,
                                  viewerInfo := some (mkViewerInfo sid p.user) }) },
       [Emission.toSocket str.hostId (Event.newViewer sid)]
       ++ sendViewerListUpdate
            (aset st.streams p.streamId
              ({ str with viewers := aset str.viewers sid (mkViewerInfo sid p.user) }))
            p.streamId) := by
  simp [viewerJoinStream, hstr, hcur, hone, hne, hold]

theorem joinStream_switch (st : ServerState) (sid : String) (p : JoinPayload)
    (str oldStream : StreamEntry) (old : String)
    (hstr : alookup st.streams p.streamId = some str)
    (hcur : (getConn st sid).currentStreamId = some old)
    (hone : old ≠ "")
    (hne : old ≠ p.streamId)
    (hold : alookup st.streams old = some oldStream) :
    viewerJoinStream st sid p =
      ({ streams := aset
           (aset st.streams old
             ({ oldStream with viewers := aerase oldStream.viewers sid }))
           p.streamId
           ({ str with viewers := aset str.viewers sid (mkViewerInfo sid p.user) })
         sockets := aset st.sockets sid
           ({ getConn st sid with currentStreamId := some p.streamId,
                                  isViewer := true,
                                  viewerInfo := some (mkViewerInfo sid p.user) }) },
       ([Emission.toSocket oldStream.hostId (Event.viewerLeft sid)]
        ++ sendViewerListUpdate
             (aset st.streams old
               ({ oldStream with viewers := aerase oldStream.viewers sid }))
             old)
       ++ [Emission.toSocket str.hostId (Event.newViewer sid)]
       ++ sendViewerListUpdate
            (aset
              (aset st.streams old
                ({ oldStream with viewers := aerase oldStream.viewers sid }))
              p.streamId
              ({ str with viewers := aset str.viewers sid (mkViewerInfo sid p.user) }))
            p.streamId) := by
  have hlook : alookup
      (aset st.streams old
        ({ oldStream with viewers := aerase oldStream.viewers sid })) p.streamId
      = some str := by
    rw [alookup_aset]
    simp [hne, hstr]
  simp [viewerJoinStream, hstr, hcur, hone, hne, hold, hlook]

/-! ### Disconnect decomposition -/

theorem endStream_vs_hostCleanup (st : ServerState) (sid : String) :
    (endStream st sid).1.streams = (disconnectHostCleanup st.streams (getConn st sid)).1 ∧
    (endStream st sid).2 = (disconnectHostCleanup st.streams (getConn st sid)).2 ∧
    (getConn (endStream st sid).1 sid).currentStreamId =
      (getConn st sid).currentStreamId ∧
    (getConn (endStream st sid).1 sid).isViewer = (getConn st sid).isViewer := by
  cases hsid : (getConn st sid).streamId with
  | none => simp [endStream_no_binding st sid hsid, disconnectHostCleanup, hsid]
  | some A =>
      by_cases hAe : A = ""
      · subst hAe
        simp [endStream_empty_binding st sid hsid, disconnectHostCleanup, hsid]
      · by_cases hh : (getConn st sid).isHost
        · cases hA : alookup st.streams A with
          | none =>
              simp [endStream_no_entry st sid A hsid hAe hA, disconnectHostCleanup,
                hh, hsid, hAe, hA]
          | some strA =>
              rw [endStream_spec st sid A strA hh hsid hAe hA]
              simp [disconnectHostCleanup, hh, hsid, hAe, hA, getConn_aset]
        · have hh' : (getConn st sid).isHost = false := by simpa using hh
          simp [endStream_not_host st sid hh', disconnectHostCleanup, hh', hsid]

theorem leave_vs_viewerCleanup (strms : List (String × StreamEntry))
    (socks : List (String × Conn)) (sid : String) (c : Conn)
    (hcur : (getConn { streams := strms, sockets := socks } sid).currentStreamId =
      c.currentStreamId)
    (hcv : c.currentStreamId.isSome → c.isViewer = true) :
    (viewerLeaveStream { streams := strms, sockets := socks } sid).1.streams =
      (disconnectViewerCleanup strms sid c).1 ∧
    (viewerLeaveStream { streams := strms, sockets := socks } sid).2 =
      (disconnectViewerCleanup strms sid c).2 := by
  cases hc : c.currentStreamId with
  | none =>
      rw [hc] at hcur
      simp [leaveStream_no_cur _ sid hcur, disconnectViewerCleanup, hc]
  | some S =>
      rw [hc] at hcur
      by_cases hSe : S = ""
      · subst hSe
        simp [leaveStream_empty_cur _ sid hcur, disconnectViewerCleanup, hc]
      · have hv : c.isViewer = true := hcv (by simp [hc])
        cases hS : alookup strms S with
        | none =>
            rw [leaveStream_missing _ sid S hcur hSe hS]
            simp [disconnectViewerCleanup, hv, hc, hSe, hS]
        | some strS =>
            rw [leaveStream_spec _ sid S strS hcur hSe hS]
            simp [disconnectViewerCleanup, hv, hc, hSe, hS]

theorem handleDisconnect_decomp (st : ServerState) (sid : String)
    (hcv : (getConn st sid).currentStreamId.isSome → (getConn st sid).isViewer = true) :
    (handleDisconnect st sid).1.streams =
      (viewerLeaveStream (endStream st sid).1 sid).1.streams ∧
    (handleDisconnect st sid).2 =
      (endStream st sid).2 ++ (viewerLeaveStream (endStream st sid).1 sid).2 := by
  obtain ⟨hs, he, hcur, hview⟩ := endStream_vs_hostCleanup st sid
  have hEeta : (endStream st sid).1 =
      { streams := (disconnectHostCleanup st.streams (getConn st sid)).1
        sockets := (endStream st sid).1.sockets } := by
    rw [← hs]
  have hmain := leave_vs_viewerCleanup
    (disconnectHostCleanup st.streams (getConn st sid)).1
    (endStream st sid).1.sockets sid (getConn st sid)
    (by rw [← hEeta]; exact hcur) hcv
  refine ⟨?_, ?_⟩
  · have hL : (handleDisconnect st sid).1.streams =
        (disconnectViewerCleanup (disconnectHostCleanup st.streams (getConn st sid)).1 sid
          (getConn st sid)).1 := rfl
    rw [hL, ← hmain.1, hEeta]
  · have hL : (handleDisconnect st sid).2 =
        (disconnectHostCleanup st.streams (getConn st sid)).2 ++
        (disconnectViewerCleanup (disconnectHostCleanup st.streams (getConn st sid)).1 sid
          (getConn st sid)).2 := rfl
    rw [hL, ← he, ← hmain.2, hEeta]

/-! ### Preservation of the membership invariant -/

theorem memCur_init : MemCur initState := by
  intro k s v hk hv hk0
  simp [initState, alookup] at hk

theorem memCur_create (st : ServerState) (sid : String) (p : CreatePayload)
    (h : MemCur st) : MemCur (createStream st sid p).1 := by
  by_cases hne : p.streamId = ""
  · have h1 : (createStream st sid p).1 = st := by simp [createStream, hne]
    rw [h1]
    exact h
  · have h1 : (createStream st sid p).1 =
        { streams := aset st.streams (jsTrim p.streamId)
            { hostId := sid, title := createTitle p, viewers := [] }
          sockets := aset st.sockets sid
            { getConn st sid with isHost := true,
                                  streamId := some (jsTrim p.streamId) } } := by
      rw [createStream_spec st sid p hne]
    rw [h1]
    intro k s v hk hv hk0
    simp only [alookup_aset] at hk
    by_cases hT : jsTrim p.streamId = k
    · rw [if_pos hT] at hk
      cases hk
      simp [keysOf_nil] at hv
    · rw [if_neg hT] at hk
      have hmem := h k s v hk hv hk0
      rw [getConn_aset]
      by_cases hsv : sid = v
      · subst hsv
        simp only [if_pos rfl]
        exact hmem
      · rw [if_neg hsv]
        exact hmem

theorem memCur_end (st : ServerState) (sid : String) (h : MemCur st) :
    MemCur (endStream st sid).1 := by
  cases hsid : (getConn st sid).streamId with
  | none =>
      rw [endStream_no_binding st sid hsid]
      exact h
  | some A =>
      by_cases hAe : A = ""
      · subst hAe
        rw [endStream_empty_binding st sid hsid]
        exact h
      · by_cases hh : (getConn st sid).isHost
        · cases hA : alookup st.streams A with
          | none =>
              rw [endStream_no_entry st sid A hsid hAe hA]
              exact h
          | some strA =>
              have h1 : (endStream st sid).1 =
                  { streams := aerase st.streams A
                    sockets := aset st.sockets sid
                      { getConn st sid with streamId := none, isHost := false } } := by
                rw [endStream_spec st sid A strA hh hsid hAe hA]
              rw [h1]
              intro k s v hk hv hk0
              simp only [alookup_aerase] at hk
              by_cases hAk : A = k
              · rw [if_pos hAk] at hk
                simp at hk
              · rw [if_neg hAk] at hk
                have hmem := h k s v hk hv hk0
                rw [getConn_aset]
                by_cases hsv : sid = v
                · subst hsv
                  simp only [if_pos rfl]
                  exact hmem
                · rw [if_neg hsv]
                  exact hmem
        · rw [endStream_not_host st sid (by simpa using hh)]
          exact h

theorem memCur_leave (st : ServerState) (sid : String) (h : MemCur st) :
    MemCur (viewerLeaveStream st sid).1 := by
  cases hcur : (getConn st sid).currentStreamId with
  | none =>
      rw [leaveStream_no_cur st sid hcur]
      exact h
  | some S =>
      by_cases hSe : S = ""
      · subst hSe
        rw [leaveStream_empty_cur st sid hcur]
        exact h
      · cases hS : alookup st.streams S with
        | none =>
            have h1 : (viewerLeaveStream st sid).1 =
                { streams := st.streams
                  sockets := aset st.sockets sid
                    ({ getConn st sid with currentStreamId := none, isViewer := false,
                                           viewerInfo := none }) } := by
              rw [leaveStream_missing st sid S hcur hSe hS]
            rw [h1]
            intro k s v hk hv hk0
            have hmem := h k s v hk hv hk0
            rw [getConn_aset]
            by_cases hsv : sid = v
            · subst hsv
              rw [hcur] at hmem
              cases Option.some.inj hmem
              rw [hk] at hS
              simp at hS
            · rw [if_neg hsv]
              exact hmem
        | some strS =>
            have h1 : (viewerLeaveStream st sid).1 =
                { streams := aset st.streams S
                    ({ strS with viewers := aerase strS.viewers sid })
                  sockets := aset st.sockets sid
                    ({ getConn st sid with currentStreamId := none, isViewer := false,
                                           viewerInfo := none }) } := by
              rw [leaveStream_spec st sid S strS hcur hSe hS]
            rw [h1]
            intro k s v hk hv hk0
            simp only [alookup_aset] at hk
            by_cases hSk : S = k
            · rw [if_pos hSk] at hk
              cases hk
              simp only [mem_keysOf_aerase] at hv
              have hmem := h k strS v (hSk ▸ hS) hv.1 hk0
              rw [getConn_aset, if_neg (fun hh2 => hv.2 hh2.symm)]
              exact hmem
            · rw [if_neg hSk] at hk
              have hmem := h k s v hk hv hk0
              rw [getConn_aset]
              by_cases hsv : sid = v
              · subst hsv
                rw [hcur] at hmem
                exact absurd (Option.some.inj hmem) hSk
              · rw [if_neg hsv]
                exact hmem

theorem memCur_attach (base : List (String × StreamEntry)) (socks : List (String × Conn))
    (sid P : String) (vInfo : ViewerInfo) (str : StreamEntry) (cJoin : Conn)
    (hP : alookup base P = some str)
    (hcurJ : cJoin.currentStreamId = some P)
    (hbase : MemCur { streams := base, sockets := socks })
    (hsid : ∀ k s, alookup base k = some s → sid ∈ keysOf s.viewers → k ≠ "" → k = P) :
    MemCur { streams := aset base P ({ str with viewers := aset str.viewers sid vInfo })
             sockets := aset socks sid cJoin } := by
  intro k s v hk hv hk0
  simp only [alookup_aset] at hk
  by_cases hPk : P = k
  · rw [if_pos hPk] at hk
    cases hk
    simp only [mem_keysOf_aset] at hv
    rcases hv with rfl | hv2
    · rw [getConn_aset, if_pos rfl, hcurJ, hPk]
    · have hmem := hbase k str v (hPk ▸ hP) hv2 hk0
      rw [getConn_aset]
      by_cases hsv : sid = v
      · subst hsv
        rw [if_pos rfl, hcurJ, hPk]
      · rw [if_neg hsv]
        exact hmem
  · rw [if_neg hPk] at hk
    have hmem := hbase k s v hk hv hk0
    rw [getConn_aset]
    by_cases hsv : sid = v
    · subst hsv
      exact absurd (hsid k s hk hv hk0).symm hPk
    · rw [if_neg hsv]
      exact hmem

theorem memCur_join (st : ServerState) (sid : String) (p : JoinPayload)
    (h : MemCur st) : MemCur (viewerJoinStream st sid p).1 := by
  cases hstr : alookup st.streams p.streamId with
  | none =>
      rw [joinStream_notFound st sid p hstr]
      exact h
  | some str =>
      cases hcur : (getConn st sid).currentStreamId with
      | none =>
          have h1 : (viewerJoinStream st sid p).1 =
              { streams := aset st.streams p.streamId
                  ({ str with viewers := aset str.viewers sid (mkViewerInfo sid p.user) })
                sockets := aset st.sockets sid
                  ({ getConn st sid with currentStreamId := some p.streamId,
                                         isViewer := true,
                                         viewerInfo := some (mkViewerInfo sid p.user) }) } := by
            rw [joinStream_fresh st sid p str hstr hcur]
          rw [h1]
          refine memCur_attach st.streams st.sockets sid p.streamId _ str _ hstr rfl h ?_
          intro k s hk hv hk0
          have hmem := h k s sid hk hv hk0
          rw [hcur] at hmem
          simp at hmem
      | some old =>
          by_cases hoemp : old = ""
          · subst hoemp
            have h1 : (viewerJoinStream st sid p).1 =
                { streams := aset st.streams p.streamId
                    ({ str with viewers := aset str.viewers sid (mkViewerInfo sid p.user) })
                  sockets := aset st.sockets sid
                    ({ getConn st sid with currentStreamId := some p.streamId,
                                           isViewer := true,
                                           viewerInfo := some (mkViewerInfo sid p.user) }) } := by
              rw [joinStream_cur_empty st sid p str hstr hcur]
            rw [h1]
            refine memCur_attach st.streams st.sockets sid p.streamId _ str _ hstr rfl h ?_
            intro k s hk hv hk0
            have hmem := h k s sid hk hv hk0
            rw [hcur] at hmem
            exact absurd (Option.some.inj hmem).symm hk0
          · by_cases hne2 : old = p.streamId
            · subst hne2
              have h1 : (viewerJoinStream st sid p).1 =
                  { streams := aset st.streams p.streamId
                      ({ str with viewers := aset str.viewers sid (mkViewerInfo sid p.user) })
                    sockets := aset st.sockets sid
                      ({ getConn st sid with currentStreamId := some p.streamId,
                                             isViewer := true,
                                             viewerInfo := some (mkViewerInfo sid p.user) }) } := by
                rw [joinStream_rejoin st sid p str hstr hcur]
              rw [h1]
              refine memCur_attach st.streams st.sockets sid p.streamId _ str _ hstr rfl h ?_
              intro k s hk hv hk0
              have hmem := h k s sid hk hv hk0
              rw [hcur] at hmem
              exact (Option.some.inj hmem).symm
            · cases hold : alookup st.streams old with
              | none =>
                  have h1 : (viewerJoinStream st sid p).1 =
                      { streams := aset st.streams p.streamId
                          ({ str with viewers := aset str.viewers sid (mkViewerInfo sid p.user) })
                        sockets := aset st.sockets sid
                          ({ getConn st sid with currentStreamId := some p.streamId,
                                                 isViewer := true,
                                                 viewerInfo := some (mkViewerInfo sid p.user) }) } := by
                    rw [joinStream_switch_missing st sid p str old hstr hcur hoemp hne2 hold]
                  rw [h1]
                  refine memCur_attach st.streams st.sockets sid p.streamId _ str _ hstr rfl h ?_
                  intro k s hk hv hk0
                  have hmem := h k s sid hk hv hk0
                  rw [hcur] at hmem
                  cases Option.some.inj hmem
                  rw [hk] at hold
                  simp at hold
              | some oldStream =>
                  have h1 : (viewerJoinStream st sid p).1 =
                      { streams := aset
                          (aset st.streams old
                            ({ oldStream with viewers := aerase oldStream.viewers sid }))
                          p.streamId
                          ({ str with viewers := aset str.viewers sid (mkViewerInfo sid p.user) })
                        sockets := aset st.sockets sid
                          ({ getConn st sid with currentStreamId := some p.streamId,
                                                 isViewer := true,
                                                 viewerInfo := some (mkViewerInfo sid p.user) }) } := by
                    rw [joinStream_switch st sid p str oldStream old hstr hcur hoemp hne2 hold]
                  rw [h1]
                  have hbase : MemCur
                      { streams := aset st.streams old
                          ({ oldStream with viewers := aerase oldStream.viewers sid })
                        sockets := st.sockets } := by
                    intro k s v hk hv hk0
                    simp only [alookup_aset] at hk
                    by_cases hok : old = k
                    · rw [if_pos hok] at hk
                      cases hk
                      simp only [mem_keysOf_aerase] at hv
                      exact h k oldStream v (hok ▸ hold) hv.1 hk0
                    · rw [if_neg hok] at hk
                      exact h k s v hk hv hk0
                  have hP : alookup
                      (aset st.streams old
                        ({ oldStream with viewers := aerase oldStream.viewers sid }))
                      p.streamId = some str := by
                    rw [alookup_aset, if_neg hne2]
                    exact hstr
                  refine memCur_attach _ st.sockets sid p.streamId _ str _ hP rfl hbase ?_
                  intro k s hk hv hk0
                  simp only [alookup_aset] at hk
                  by_cases hok : old = k
                  · rw [if_pos hok] at hk
                    cases hk
                    simp only [mem_keysOf_aerase] at hv
                    exact absurd rfl hv.2
                  · rw [if_neg hok] at hk
                    have hmem := h k s sid hk hv hk0
                    rw [hcur] at hmem
                    exact absurd (Option.some.inj hmem) hok

theorem memCur_hostCleanup (st : ServerState) (c : Conn) (h : MemCur st) :
    MemCur { st with streams := (disconnectHostCleanup st.streams c).1 } := by
  cases hsid : c.streamId with
  | none =>
      have heq : (disconnectHostCleanup st.streams c).1 = st.streams := by
        simp [disconnectHostCleanup, hsid]
      rw [heq]
      exact h
  | some A =>
      by_cases hcond : c.isHost = true ∧ A ≠ ""
      · cases hA : alookup st.streams A with
        | none =>
            have heq : (disconnectHostCleanup st.streams c).1 = st.streams := by
              simp [disconnectHostCleanup, hsid, hcond, hA]
            rw [heq]
            exact h
        | some strA =>
            have heq : (disconnectHostCleanup st.streams c).1 = aerase st.streams A := by
              simp [disconnectHostCleanup, hsid, hcond, hA]
            rw [heq]
            intro k s v hk hv hk0
            simp only [alookup_aerase] at hk
            by_cases hAk : A = k
            · rw [if_pos hAk] at hk
              simp at hk
            · rw [if_neg hAk] at hk
              exact h k s v hk hv hk0
      · have heq : (disconnectHostCleanup st.streams c).1 = st.streams := by
          simp [disconnectHostCleanup, hsid, hcond]
        rw [heq]
        exact h

theorem memCur_viewerCleanup (st : ServerState) (sid : String) (c : Conn)
    (h : MemCur st) :
    MemCur { st with streams := (disconnectViewerCleanup st.streams sid c).1 } := by
  cases hc : c.currentStreamId with
  | none =>
      have heq : (disconnectViewerCleanup st.streams sid c).1 = st.streams := by
        simp [disconnectViewerCleanup, hc]
      rw [heq]
      exact h
  | some S =>
      by_cases hcond : c.isViewer = true ∧ S ≠ ""
      · cases hS : alookup st.streams S with
        | none =>
            have heq : (disconnectViewerCleanup st.streams sid c).1 = st.streams := by
              simp [disconnectViewerCleanup, hc, hcond, hS]
            rw [heq]
            exact h
        | some strS =>
            have heq : (disconnectViewerCleanup st.streams sid c).1 =
                aset st.streams S ({ strS with viewers := aerase strS.viewers sid }) := by
              simp [disconnectViewerCleanup, hc, hcond, hS]
            rw [heq]
            intro k s v hk hv hk0
            simp only [alookup_aset] at hk
            by_cases hSk : S = k
            · rw [if_pos hSk] at hk
              cases hk
              simp only [mem_keysOf_aerase] at hv
              exact h k strS v (hSk ▸ hS) hv.1 hk0
            · rw [if_neg hSk] at hk
              exact h k s v hk hv hk0
      · have heq : (disconnectViewerCleanup st.streams sid c).1 = st.streams := by
          simp [disconnectViewerCleanup, hc, hcond]
        rw [heq]
        exact h

theorem memCur_disconnect (st : ServerState) (sid : String) (h : MemCur st) :
    MemCur (handleDisconnect st sid).1 := by
  have h1 := memCur_hostCleanup st (getConn st sid) h
  have h2 := memCur_viewerCleanup
    { st with streams := (disconnectHostCleanup st.streams (getConn st sid)).1 }
    sid (getConn st sid) h1
  exact h2

theorem memCur_applyOp (st : ServerState) (op : Op) (h : MemCur st) :
    MemCur (applyOp st op).1 := by
  cases op with
  | create sid p => exact memCur_create st sid p h
  | endS sid => exact memCur_end st sid h
  | join sid p => exact memCur_join st sid p h
  | leave sid => exact memCur_leave st sid h
  | disconnect sid => exact memCur_disconnect st sid h

theorem memCur_runFrom (st : ServerState) (ops : List Op) (h : MemCur st) :
    MemCur (runFrom st ops) := by
  induction ops generalizing st with
  | nil => exact h
  | cons op rest ih => exact ih (applyOp st op).1 (memCur_applyOp st op h)

theorem memCur_run (ops : List Op) : MemCur (run ops) :=
  memCur_runFrom initState ops memCur_init

/-! ### Claim C1 -/

/-- C1 counterexample: both halves of the claimed invariant fail at
reachable states.  After `hostSelfJoinOps`, host `h` is a key of its
own stream's viewer map.  After `doubleMembershipOps`, viewer `v` sits
in the viewer sets of the two distinct streams `""` and `"x"` at once,
because its falsy empty `currentStreamId` skipped the detach on the
second join. -/
theorem c1_counterexample :
    (run hostSelfJoinOps).streams =
      [("s", { hostId := "h", title := "s",
               viewers := [("h", mkViewerInfo "h" none)] })] ∧
    (alookup (run doubleMembershipOps).streams "").map
      (fun s => keysOf s.viewers) = some ["v"] ∧
    (alookup (run doubleMembershipOps).streams "x").map
      (fun s => keysOf s.viewers) = some ["v"] := by decide

/-- C1 (amended): at every reachable registry state, each connection id
occurs in the viewer set of at most one stream with a non-empty id, and
every operation preserves this.  Both stronger halves fail: a member of
the empty-id stream (reachable via a whitespace-only create) is not
detached when joining another stream, since its empty `currentStreamId`
is falsy, so it can occur in two viewer sets; and a join request whose
sender is the host of the target stream inserts the host's own id into
that stream's viewer set. -/
theorem c1_viewer_in_at_most_one_stream (ops : List Op) (k1 k2 : String)
    (s1 s2 : StreamEntry) (v : String)
    (h1 : alookup (run ops).streams k1 = some s1)
    (h2 : alookup (run ops).streams k2 = some s2)
    (hv1 : v ∈ keysOf s1.viewers) (hv2 : v ∈ keysOf s2.viewers)
    (hk1 : k1 ≠ "") (hk2 : k2 ≠ "") :
    k1 = k2 := by
  have m := memCur_run ops
  have e1 := m k1 s1 v h1 hv1 hk1
  have e2 := m k2 s2 v h2 hv2 hk2
  rw [e1] at e2
  exact Option.some.inj e2

/-- Witness for C1's theorem at the concrete two-event trace. -/
theorem c1_viewer_in_at_most_one_stream_witness :
    (alookup (run hostSelfJoinOps).streams "s" =
      some { hostId := "h", title := "s", viewers := [("h", mkViewerInfo "h" none)] }) ∧
    "h" ∈ keysOf ([("h", mkViewerInfo "h" none)] : List (String × ViewerInfo)) ∧
    ("s" : String) ≠ "" ∧
    ("s" : String) = "s" := by
  refine ⟨by decide, by decide, by decide, ?_⟩
  exact c1_viewer_in_at_most_one_stream hostSelfJoinOps "s" "s"
    { hostId := "h", title := "s", viewers := [("h", mkViewerInfo "h" none)] }
    { hostId := "h", title := "s", viewers := [("h", mkViewerInfo "h" none)] }
    "h" (by decide) (by decide) (by decide) (by decide) (by decide) (by decide)

/-! ### Claim C3 -/

/-- C3 counterexample: a create request whose streamId is the
whitespace-only string `" "` (empty after trimming) is not rejected:
it creates a stream under the empty-string key, marks the caller as
host, and emits success notifications rather than an error message. -/
theorem c3_counterexample :
    (createStream initState "h" { streamId := " ", title := none }).1.streams =
      [("", { hostId := "h", title := "", viewers := [] })] ∧
    (getConn (createStream initState "h" { streamId := " ", title := none }).1 "h").isHost
      = true ∧
    (createStream initState "h" { streamId := " ", title := none }).2 =
      [Emission.toSocket "h" (Event.streamCreated "" ""),
       Emission.broadcast (Event.streamAdded "" ""),
       Emission.toSocket "h" (Event.viewerListUpdate "" 0 [])] := by decide

/-- C3 (amended): `createStream` fails with the InvalidInput error
message and leaves the state unchanged exactly when the streamId is the
empty (falsy) string before trimming; a whitespace-only streamId passes
the check, is trimmed to the empty string, and creates a stream under
the empty-string key while binding the caller as its host. -/
theorem c3_falsy_check_only (st : ServerState) (sid : String) (t : Option String) :
    createStream st sid { streamId := "", title := t } =
      (st, [Emission.toSocket sid (Event.errorMessage "Stream ID is required.")]) ∧
    alookup (createStream st sid { streamId := " ", title := none }).1.streams "" =
      some { hostId := sid, title := "", viewers := [] } ∧
    (getConn (createStream st sid { streamId := " ", title := none }).1 sid).isHost
      = true := by
  refine ⟨createStream_falsy st sid t, ?_, ?_⟩
  · rw [createStream_spec st sid { streamId := " ", title := none } (by decide)]
    have ht : jsTrim " " = "" := by decide
    have hti : createTitle { streamId := " ", title := none } = "" := by decide
    simp [ht, hti, alookup_aset]
  · rw [createStream_spec st sid { streamId := " ", title := none } (by decide)]
    rw [getConn_aset, if_pos rfl]

/-! ### Claim C5 -/

/-- C5 counterexample: after `bothRolesOps` the connection `h` holds
the host and viewer roles simultaneously, and its disconnect runs both
cleanup branches in one step — the emissions contain the host-side
stream-removed broadcast and the viewer-side viewer-left notification. -/
theorem c5_counterexample :
    (getConn (run bothRolesOps) "h").isHost = true ∧
    (getConn (run bothRolesOps) "h").isViewer = true ∧
    (handleDisconnect (run bothRolesOps) "h").2 =
      [Emission.broadcast (Event.streamRemoved "a"),
       Emission.toSocket "g" (Event.viewerLeft "h"),
       Emission.toSocket "g" (Event.viewerListUpdate "b" 0 [])] := by decide

/-- C5 (amended): on any state in which a watched stream implies the
viewer flag, `handleDisconnect` performs exactly the registry mutation
and emission sequence of `endStream` followed by `viewerLeaveStream`;
when the connection holds only one of the two roles the other phase is
a no-op, but a connection can hold both roles at once, in which case
both cleanup phases apply in a single disconnect, host cleanup first. -/
theorem c5_disconnect_is_end_then_leave (st : ServerState) (sid : String)
    (hcv : (getConn st sid).currentStreamId.isSome → (getConn st sid).isViewer = true) :
    (handleDisconnect st sid).1.streams =
      (viewerLeaveStream (endStream st sid).1 sid).1.streams ∧
    (handleDisconnect st sid).2 =
      (endStream st sid).2 ++ (viewerLeaveStream (endStream st sid).1 sid).2 :=
  handleDisconnect_decomp st sid hcv

/-- Witness for C5's theorem at the concrete both-roles state. -/
theorem c5_disconnect_is_end_then_leave_witness :
    ((getConn (run bothRolesOps) "h").currentStreamId.isSome →
      (getConn (run bothRolesOps) "h").isViewer = true) ∧
    ((handleDisconnect (run bothRolesOps) "h").1.streams =
      (viewerLeaveStream (endStream (run bothRolesOps) "h").1 "h").1.streams ∧
     (handleDisconnect (run bothRolesOps) "h").2 =
      (endStream (run bothRolesOps) "h").2 ++
        (viewerLeaveStream (endStream (run bothRolesOps) "h").1 "h").2) :=
  ⟨by decide, c5_disconnect_is_end_then_leave (run bothRolesOps) "h" (by decide)⟩

/-! ### Claim C7 -/

/-- C7: a join request naming a streamId absent from the registry fails
with the descriptive NotFound error message emitted to the requester
only, and the whole server state is returned unchanged. -/
theorem c7_join_not_found (st : ServerState) (sid : String) (p : JoinPayload)
    (h : alookup st.streams p.streamId = none) :
    viewerJoinStream st sid p =
      (st, [Emission.toSocket sid
        (Event.errorMessage "Stream not found or has ended.")]) :=
  joinStream_notFound st sid p h

/-- Witness for C7's theorem: joining the unknown stream `x` on the
empty registry. -/
theorem c7_join_not_found_witness :
    alookup initState.streams "x" = none ∧
    viewerJoinStream initState "v" { streamId := "x", user := none } =
      (initState, [Emission.toSocket "v"
        (Event.errorMessage "Stream not found or has ended.")]) :=
  ⟨by decide, c7_join_not_found initState "v" { streamId := "x", user := none } (by decide)⟩

/-! ### Claim C9 -/

/-- C9: each forwarding handler (offer, answer, ICE candidate) leaves
the server state untouched and emits exactly one delivery, addressed to
the named target, carrying the opaque payload verbatim together with
the sender's connection id; no role or membership validation occurs. -/
theorem c9_forward_pure_routing (st : ServerState)
    (sid offer answerSdp cand viewerId hId targetId : String) :
    hostOffer st sid offer viewerId =
      (st, [Emission.toSocket viewerId (Event.receiveOffer offer sid)]) ∧
    viewerAnswer st sid answerSdp hId =
      (st, [Emission.toSocket hId (Event.receiveAnswer answerSdp sid)]) ∧
    iceCandidate st sid cand targetId =
      (st, [Emission.toSocket targetId (Event.iceCandidate cand sid)]) :=
  ⟨rfl, rfl, rfl⟩

/-! ### Claim C2 -/

theorem viewerCleanup_preserves_none (streams : List (String × StreamEntry))
    (sid A : String) (c : Conn)
    (h : alookup streams A = none) :
    alookup (disconnectViewerCleanup streams sid c).1 A = none := by
  cases hc : c.currentStreamId with
  | none => simp [disconnectViewerCleanup, hc, h]
  | some S =>
      by_cases hcond : c.isViewer = true ∧ S ≠ ""
      · cases hS : alookup streams S with
        | none => simp [disconnectViewerCleanup, hc, hcond, hS, h]
        | some strS =>
            have hSA : ¬ S = A := by
              intro hEq
              rw [hEq, h] at hS
              cases hS
            simp [disconnectViewerCleanup, hc, hcond, hS, alookup_aset, hSA, h]
      · simp [disconnectViewerCleanup, hc, hcond, h]

/-- C2 counterexample: one connection creates stream `a` and then
stream `b`; afterwards stream `a` is still present while the complete
socket table shows the only connection's host binding names `b` — a
stream exists with no connection currently holding the host role bound
to it, so the claimed equivalence is false at this reachable state. -/
theorem c2_counterexample :
    alookup (run doubleCreateOps).streams "a" =
      some { hostId := "h", title := "a", viewers := [] } ∧
    (run doubleCreateOps).sockets =
      [("h", { isHost := true, streamId := some "b", isViewer := false,
               currentStreamId := none, viewerInfo := none })] := by decide

/-- C2 (amended): a stream entry with a non-empty id is removed in the
same step in which a connection whose host binding names it ends the
stream or disconnects (the empty-id stream, reachable only through a
whitespace-only create, is never removed, since the guards treat its
binding as falsy); but when the hosting connection creates a second
stream under a different id, the first entry survives unchanged while
the connection is rebound to the new id, so presence of a stream does
not imply a currently bound host. -/
theorem c2_removal_and_orphan (st : ServerState) (sid A : String)
    (str : StreamEntry) (p : CreatePayload)
    (hh : (getConn st sid).isHost = true)
    (hsid : (getConn st sid).streamId = some A)
    (hAne : A ≠ "")
    (hstr : alookup st.streams A = some str)
    (hne : p.streamId ≠ "")
    (hdiff : jsTrim p.streamId ≠ A) :
    alookup (endStream st sid).1.streams A = none ∧
    alookup (handleDisconnect st sid).1.streams A = none ∧
    alookup (createStream st sid p).1.streams A = some str ∧
    (getConn (createStream st sid p).1 sid).streamId = some (jsTrim p.streamId) := by
  refine ⟨?_, ?_, ?_, ?_⟩
  · rw [endStream_spec st sid A str hh hsid hAne hstr]
    simp [alookup_aerase]
  · have hnone : alookup (disconnectHostCleanup st.streams (getConn st sid)).1 A
        = none := by
      have hH : (disconnectHostCleanup st.streams (getConn st sid)).1 =
          aerase st.streams A := by
        simp [disconnectHostCleanup, hh, hsid, hAne, hstr]
      rw [hH, alookup_aerase, if_pos rfl]
    exact viewerCleanup_preserves_none
      (disconnectHostCleanup st.streams (getConn st sid)).1 sid A (getConn st sid) hnone
  · rw [createStream_spec st sid p hne]
    simp [alookup_aset, hdiff, hstr]
  · rw [createStream_spec st sid p hne]
    rw [getConn_aset, if_pos rfl]

/-- Witness for C2's theorem at the concrete one-create state. -/
theorem c2_removal_and_orphan_witness :
    ((getConn (run createAOps) "h").isHost = true ∧
     (getConn (run createAOps) "h").streamId = some "a" ∧
     ("a" : String) ≠ "" ∧
     alookup (run createAOps).streams "a" =
       some { hostId := "h", title := "a", viewers := [] } ∧
     ("b" : String) ≠ "" ∧ jsTrim "b" ≠ "a") ∧
    alookup (endStream (run createAOps) "h").1.streams "a" = none ∧
    alookup (handleDisconnect (run createAOps) "h").1.streams "a" = none ∧
    alookup (createStream (run createAOps) "h"
      { streamId := "b", title := none }).1.streams "a" =
      some { hostId := "h", title := "a", viewers := [] } ∧
    (getConn (createStream (run createAOps) "h"
      { streamId := "b", title := none }).1 "h").streamId = some (jsTrim "b") := by
  have hc := c2_removal_and_orphan (run createAOps) "h" "a"
    { hostId := "h", title := "a", viewers := [] } { streamId := "b", title := none }
    (by decide) (by decide) (by decide) (by decide) (by decide) (by decide)
  exact ⟨⟨by decide, by decide, by decide, by decide, by decide, by decide⟩,
    hc.1, hc.2.1, hc.2.2.1, hc.2.2.2⟩

/-! ### Claim C4 -/

/-- C4 counterexample: creating with the padded id `" a "` stores the
stream under the trimmed key `"a"`, but a join naming the very same
string `" a "` looks it up untrimmed, finds nothing, and fails with the
NotFound error while changing no state — storage and lookup do not
apply the same normalization. -/
theorem c4_counterexample :
    alookup padCreateState.streams "a" =
      some { hostId := "h", title := "a", viewers := [] } ∧
    alookup padCreateState.streams " a " = none ∧
    viewerJoinStream padCreateState "v" { streamId := " a ", user := none } =
      (padCreateState,
       [Emission.toSocket "v" (Event.errorMessage "Stream not found or has ended.")]) := by
  decide

/-- C4 (amended): `createStream` trims the streamId before storing but
`viewerJoinStream` looks the raw string up unchanged, so create
followed by join with the same string resolves to the same registry
entry exactly when the string is already trimmed; whitespace-padded
variants of the key fail with NotFound (see the counterexample). -/
theorem c4_create_join_same_key (st : ServerState) (hconn v : String)
    (p : CreatePayload) (u : Option UserMeta)
    (hne : p.streamId ≠ "")
    (htrim : jsTrim p.streamId = p.streamId) :
    alookup (viewerJoinStream (createStream st hconn p).1 v
        { streamId := p.streamId, user := u }).1.streams p.streamId =
      some { hostId := hconn, title := createTitle p,
             viewers := [(v, mkViewerInfo v u)] } := by
  have hst1 : (createStream st hconn p).1 =
      { streams := aset st.streams p.streamId
          { hostId := hconn, title := createTitle p, viewers := [] }
        sockets := aset st.sockets hconn
          { getConn st hconn with isHost := true, streamId := some p.streamId } } := by
    rw [createStream_spec st hconn p hne, htrim]
  rw [hst1]
  have hstr1 : alookup
      (aset st.streams p.streamId
        { hostId := hconn, title := createTitle p, viewers := [] }) p.streamId =
      some { hostId := hconn, title := createTitle p, viewers := [] } := by
    rw [alookup_aset, if_pos rfl]
  set stL : ServerState :=
    { streams := aset st.streams p.streamId
        { hostId := hconn, title := createTitle p, viewers := [] }
      sockets := aset st.sockets hconn
        { getConn st hconn with isHost := true, streamId := some p.streamId } } with hstL
  cases hcur : (getConn stL v).currentStreamId with
  | none =>
      rw [joinStream_fresh stL v { streamId := p.streamId, user := u }
        { hostId := hconn, title := createTitle p, viewers := [] } hstr1 hcur]
      simp [alookup_aset, aset]
  | some old =>
      by_cases hoemp : old = ""
      · subst hoemp
        rw [joinStream_cur_empty stL v { streamId := p.streamId, user := u }
          { hostId := hconn, title := createTitle p, viewers := [] } hstr1 hcur]
        simp [alookup_aset, aset]
      · by_cases hoe : old = p.streamId
        · subst hoe
          rw [joinStream_rejoin stL v { streamId := p.streamId, user := u }
            { hostId := hconn, title := createTitle p, viewers := [] } hstr1 hcur]
          simp [alookup_aset, aset]
        · cases hold : alookup stL.streams old with
          | none =>
              rw [joinStream_switch_missing stL v { streamId := p.streamId, user := u }
                { hostId := hconn, title := createTitle p, viewers := [] } old
                hstr1 hcur hoemp hoe hold]
              simp [alookup_aset, aset]
          | some oldStream =>
              rw [joinStream_switch stL v { streamId := p.streamId, user := u }
                { hostId := hconn, title := createTitle p, viewers := [] } oldStream old
                hstr1 hcur hoemp hoe hold]
              simp [alookup_aset, aset]

/-- Witness for C4's theorem: an already-trimmed id round-trips. -/
theorem c4_create_join_same_key_witness :
    (("a" : String) ≠ "" ∧ jsTrim "a" = "a") ∧
    alookup (viewerJoinStream
        (createStream initState "h" { streamId := "a", title := none }).1 "v"
        { streamId := "a", user := none }).1.streams "a" =
      some { hostId := "h", title := createTitle { streamId := "a", title := none },
             viewers := [("v", mkViewerInfo "v" none)] } :=
  ⟨⟨by decide, by decide⟩,
   c4_create_join_same_key initState "h" "v" { streamId := "a", title := none } none
     (by decide) (by decide)⟩

/-! ### Claim C8 -/

theorem keysOf_aset_mem {α : Type} (l : List (String × α)) (a : String) (x : α)
    (h : (alookup l a).isSome) : keysOf (aset l a x) = keysOf l := by
  induction l with
  | nil => simp [alookup] at h
  | cons q rest ih =>
      obtain ⟨k, v⟩ := q
      by_cases hka : k = a
      · subst hka
        simp [aset, keysOf_cons]
      · simp [alookup, hka] at h
        simp [aset, hka, keysOf_cons, ih h]

/-- C8: a second join for the stream the viewer is already watching is
an idempotent no-op on membership — the viewer set keeps exactly the
same keys, no other stream entry changes (no detach anywhere), and the
stored metadata is replaced by that of the latest join. -/
theorem c8_rejoin_idempotent (st : ServerState) (sid : String) (p : JoinPayload)
    (str : StreamEntry)
    (hstr : alookup st.streams p.streamId = some str)
    (hcur : (getConn st sid).currentStreamId = some p.streamId)
    (hmem : (alookup str.viewers sid).isSome) :
    alookup (viewerJoinStream st sid p).1.streams p.streamId =
      some { str with viewers := aset str.viewers sid (mkViewerInfo sid p.user) } ∧
    keysOf (aset str.viewers sid (mkViewerInfo sid p.user)) = keysOf str.viewers ∧
    alookup (aset str.viewers sid (mkViewerInfo sid p.user)) sid =
      some (mkViewerInfo sid p.user) ∧
    (∀ w, w ≠ sid → alookup (aset str.viewers sid (mkViewerInfo sid p.user)) w =
      alookup str.viewers w) ∧
    (∀ k, k ≠ p.streamId →
      alookup (viewerJoinStream st sid p).1.streams k = alookup st.streams k) := by
  refine ⟨?_, keysOf_aset_mem str.viewers sid _ hmem, ?_, ?_, ?_⟩
  · rw [joinStream_rejoin st sid p str hstr hcur]
    simp [alookup_aset]
  · rw [alookup_aset, if_pos rfl]
  · intro w hw
    rw [alookup_aset, if_neg (fun hh2 => hw hh2.symm)]
  · intro k hk
    rw [joinStream_rejoin st sid p str hstr hcur]
    simp only [alookup_aset]
    rw [if_neg (fun hh2 => hk hh2.symm)]

/-- Witness for C8's theorem: `v` rejoins `s` with new metadata. -/
theorem c8_rejoin_idempotent_witness :
    ((alookup (run createJoinOps).streams joinAgainPayload.streamId = some sEntry) ∧
     ((getConn (run createJoinOps) "v").currentStreamId =
       some joinAgainPayload.streamId) ∧
     (alookup sEntry.viewers "v").isSome) ∧
    alookup (viewerJoinStream (run createJoinOps) "v" joinAgainPayload).1.streams
        joinAgainPayload.streamId =
      some { sEntry with viewers := aset sEntry.viewers "v" (mkViewerInfo "v" joinAgainPayload.user) } := by
  refine ⟨⟨by decide, by decide, by decide⟩, ?_⟩
  exact (c8_rejoin_idempotent (run createJoinOps) "v" joinAgainPayload sEntry
    (by decide) (by decide) (by decide)).1

/-! ### Claim C6 -/

theorem count_streamEnded_map (l : List (String × ViewerInfo)) (A v : String)
    (hnd : (keysOf l).Nodup) :
    (l.map (fun q => Emission.toSocket q.1 (Event.streamEnded A))).count
      (Emission.toSocket v (Event.streamEnded A)) = if v ∈ keysOf l then 1 else 0 := by
  induction l with
  | nil => simp [keysOf_nil]
  | cons q rest ih =>
      obtain ⟨k, info⟩ := q
      rw [keysOf_cons] at hnd
      rw [List.nodup_cons] at hnd
      by_cases hvk : k = v
      · subst hvk
        simp [List.count_cons, ih hnd.2, keysOf_cons, hnd.1]
      · have hvk2 : ¬ v = k := fun hh2 => hvk hh2.symm
        simp [List.count_cons, ih hnd.2, keysOf_cons, hvk, hvk2]

/-- C6 counterexample: a create request with the whitespace-only id is
stored under the empty-string key and binds the host to the falsy empty
string, so the host's subsequent end-stream request early-returns: the
created stream stays in the registry and the public list, and no
stream-ended or stream-removed notification is emitted — the claimed
round trip fails for this created stream. -/
theorem c6_counterexample :
    endStream (createStream initState "h" { streamId := " ", title := none }).1 "h" =
      ((createStream initState "h" { streamId := " ", title := none }).1, []) ∧
    getPublicStreams (endStream (createStream initState "h"
        { streamId := " ", title := none }).1 "h").1 =
      [{ streamId := "", title := "", hostId := "h" }] := by decide

/-- C6 (amended): for a created stream whose id is non-empty, ending it
by its bound host removes the entry from the registry and the public
list, emits exactly one stream-ended notification to each connection
currently in the stream's viewer set, none to any other connection, and
exactly one stream-removed broadcast; the empty-id stream produced by a
whitespace-only create is the exception — its host's end-stream request
early-returns on the falsy binding (see the counterexample). -/
theorem c6_create_end_roundtrip (st : ServerState) (sid A : String) (str : StreamEntry)
    (hh : (getConn st sid).isHost = true)
    (hsid : (getConn st sid).streamId = some A)
    (hAne : A ≠ "")
    (hstr : alookup st.streams A = some str)
    (hnd : (keysOf str.viewers).Nodup) :
    alookup (endStream st sid).1.streams A = none ∧
    (∀ e ∈ getPublicStreams (endStream st sid).1, e.streamId ≠ A) ∧
    (∀ v, (endStream st sid).2.count (Emission.toSocket v (Event.streamEnded A)) =
      if v ∈ keysOf str.viewers then 1 else 0) ∧
    (endStream st sid).2.count (Emission.broadcast (Event.streamRemoved A)) = 1 := by
  rw [endStream_spec st sid A str hh hsid hAne hstr]
  refine ⟨?_, ?_, ?_, ?_⟩
  · simp [alookup_aerase]
  · intro e he
    simp only [getPublicStreams] at he
    obtain ⟨q, hq, rfl⟩ := List.mem_map.mp he
    intro hEq
    have hmem2 : q.1 ∈ keysOf (aerase st.streams A) :=
      List.mem_map_of_mem Prod.fst hq
    rw [mem_keysOf_aerase] at hmem2
    exact hmem2.2 hEq
  · intro v
    rw [List.count_append, count_streamEnded_map str.viewers A v hnd]
    simp
  · rw [List.count_append]
    have hz : (str.viewers.map
        (fun q => Emission.toSocket q.1 (Event.streamEnded A))).count
        (Emission.broadcast (Event.streamRemoved A)) = 0 := by
      rw [List.count_eq_zero]
      intro hmem2
      obtain ⟨q, hq, hEq⟩ := List.mem_map.mp hmem2
      cases hEq
    simp [hz]

/-- Witness for C6's theorem at the concrete create-join state. -/
theorem c6_create_end_roundtrip_witness :
    ((getConn (run createJoinOps) "h").isHost = true ∧
     (getConn (run createJoinOps) "h").streamId = some "s" ∧
     ("s" : String) ≠ "" ∧
     alookup (run createJoinOps).streams "s" = some sEntry ∧
     (keysOf sEntry.viewers).Nodup) ∧
    alookup (endStream (run createJoinOps) "h").1.streams "s" = none ∧
    (endStream (run createJoinOps) "h").2.count
      (Emission.toSocket "v" (Event.streamEnded "s")) =
      (if "v" ∈ keysOf sEntry.viewers then 1 else 0) ∧
    (endStream (run createJoinOps) "h").2.count
      (Emission.broadcast (Event.streamRemoved "s")) = 1 := by
  have hc := c6_create_end_roundtrip (run createJoinOps) "h" "s" sEntry
    (by decide) (by decide) (by decide) (by decide) (by decide)
  exact ⟨⟨by decide, by decide, by decide, by decide, by decide⟩,
    hc.1, hc.2.2.1 "v", hc.2.2.2⟩

/-! ### Claim C10 -/

theorem alookup_mem {α : Type} (l : List (String × α)) (k : String) (x : α)
    (h : alookup l k = some x) : (k, x) ∈ l := by
  induction l with
  | nil => simp [alookup] at h
  | cons q rest ih =>
      obtain ⟨k2, v⟩ := q
      by_cases hk : k2 = k
      · subst hk
        simp [alookup] at h
        rw [← h]
        exact List.mem_cons_self _ _
      · simp [alookup, hk] at h
        exact List.mem_cons_of_mem _ (ih h)

theorem hostCleanup_entry_preserved (streams : List (String × StreamEntry)) (c0 : Conn)
    (A c : String) (hne : c0.streamId ≠ some A)
    (hA : ∃ e', alookup streams A = some e' ∧ e'.hostId = c) :
    ∃ e', alookup (disconnectHostCleanup streams c0).1 A = some e' ∧ e'.hostId = c := by
  obtain ⟨e0, he0, hh0⟩ := hA
  cases hsid : c0.streamId with
  | none =>
      have heq : (disconnectHostCleanup streams c0).1 = streams := by
        simp [disconnectHostCleanup, hsid]
      rw [heq]
      exact ⟨e0, he0, hh0⟩
  | some A2 =>
      by_cases hcond : c0.isHost = true ∧ A2 ≠ ""
      · cases hA2 : alookup streams A2 with
        | none =>
            have heq : (disconnectHostCleanup streams c0).1 = streams := by
              simp [disconnectHostCleanup, hsid, hcond, hA2]
            rw [heq]
            exact ⟨e0, he0, hh0⟩
        | some str2 =>
            have heq : (disconnectHostCleanup streams c0).1 = aerase streams A2 := by
              simp [disconnectHostCleanup, hsid, hcond, hA2]
            rw [heq]
            have hA2A : ¬ A2 = A := by
              intro hEq
              exact hne (by rw [hsid, hEq])
            refine ⟨e0, ?_, hh0⟩
            rw [alookup_aerase, if_neg hA2A]
            exact he0
      · have heq : (disconnectHostCleanup streams c0).1 = streams := by
          simp [disconnectHostCleanup, hsid, hcond]
        rw [heq]
        exact ⟨e0, he0, hh0⟩

theorem viewerCleanup_entry_preserved (streams : List (String × StreamEntry))
    (sid : String) (c0 : Conn) (A c : String)
    (hA : ∃ e', alookup streams A = some e' ∧ e'.hostId = c) :
    ∃ e', alookup (disconnectViewerCleanup streams sid c0).1 A = some e' ∧
      e'.hostId = c := by
  obtain ⟨e0, he0, hh0⟩ := hA
  cases hc : c0.currentStreamId with
  | none =>
      have heq : (disconnectViewerCleanup streams sid c0).1 = streams := by
        simp [disconnectViewerCleanup, hc]
      rw [heq]
      exact ⟨e0, he0, hh0⟩
  | some S =>
      by_cases hcond : c0.isViewer = true ∧ S ≠ ""
      · cases hS : alookup streams S with
        | none =>
            have heq : (disconnectViewerCleanup streams sid c0).1 = streams := by
              simp [disconnectViewerCleanup, hc, hcond, hS]
            rw [heq]
            exact ⟨e0, he0, hh0⟩
        | some strS =>
            have heq : (disconnectViewerCleanup streams sid c0).1 =
                aset streams S ({ strS with viewers := aerase strS.viewers sid }) := by
              simp [disconnectViewerCleanup, hc, hcond, hS]
            rw [heq]
            by_cases hSA : S = A
            · subst hSA
              rw [hS] at he0
              have hse : strS = e0 := Option.some.inj he0
              refine ⟨{ strS with viewers := aerase strS.viewers sid }, ?_, ?_⟩
              · rw [alookup_aset, if_pos rfl]
              · show strS.hostId = c
                rw [hse]
                exact hh0
            · refine ⟨e0, ?_, hh0⟩
              rw [alookup_aset, if_neg hSA]
              exact he0
      · have heq : (disconnectViewerCleanup streams sid c0).1 = streams := by
          simp [disconnectViewerCleanup, hc, hcond]
        rw [heq]
        exact ⟨e0, he0, hh0⟩

theorem orphanInv_attach (base : List (String × StreamEntry))
    (socks : List (String × Conn)) (sid P A c : String) (str : StreamEntry)
    (vInfo : ViewerInfo) (cJoin : Conn)
    (hjsid : cJoin.streamId = (getConn { streams := base, sockets := socks } sid).streamId)
    (hnb : ∀ v, (getConn { streams := base, sockets := socks } v).streamId ≠ some A)
    (hA : ∃ e', alookup base A = some e' ∧ e'.hostId = c)
    (hP : alookup base P = some str) :
    OrphanInv { streams := aset base P ({ str with viewers := aset str.viewers sid vInfo })
                sockets := aset socks sid cJoin } A c := by
  obtain ⟨e0, he0, hh0⟩ := hA
  constructor
  · intro v
    rw [getConn_aset]
    by_cases hsv : sid = v
    · rw [if_pos hsv, hjsid]
      exact hnb sid
    · rw [if_neg hsv]
      exact hnb v
  · by_cases hPA : P = A
    · subst hPA
      rw [hP] at he0
      have hse : str = e0 := Option.some.inj he0
      refine ⟨{ str with viewers := aset str.viewers sid vInfo }, ?_, ?_⟩
      · rw [alookup_aset, if_pos rfl]
      · show str.hostId = c
        rw [hse]
        exact hh0
    · refine ⟨e0, ?_, hh0⟩
      rw [alookup_aset, if_neg hPA]
      exact he0

theorem orphanInv_step (st : ServerState) (A c : String) (op : Op)
    (hop : op.nonCreate = true)
    (h : OrphanInv st A c) :
    OrphanInv (applyOp st op).1 A c := by
  obtain ⟨hnb, e0, he0, hh0⟩ := h
  cases op with
  | create sid p => simp [Op.nonCreate] at hop
  | endS sid =>
      show OrphanInv (endStream st sid).1 A c
      cases hsid : (getConn st sid).streamId with
      | none =>
          rw [endStream_no_binding st sid hsid]
          exact ⟨hnb, e0, he0, hh0⟩
      | some A2 =>
          by_cases hA2e : A2 = ""
          · subst hA2e
            rw [endStream_empty_binding st sid hsid]
            exact ⟨hnb, e0, he0, hh0⟩
          · by_cases hh : (getConn st sid).isHost
            · cases hA2 : alookup st.streams A2 with
              | none =>
                  rw [endStream_no_entry st sid A2 hsid hA2e hA2]
                  exact ⟨hnb, e0, he0, hh0⟩
              | some str2 =>
                  rw [endStream_spec st sid A2 str2 hh hsid hA2e hA2]
                  have hA2A : ¬ A2 = A := by
                    intro hEq
                    exact hnb sid (by rw [hsid, hEq])
                  constructor
                  · intro v
                    rw [getConn_aset]
                    by_cases hsv : sid = v
                    · rw [if_pos hsv]
                      simp
                    · rw [if_neg hsv]
                      exact hnb v
                  · refine ⟨e0, ?_, hh0⟩
                    simp only [alookup_aerase]
                    rw [if_neg hA2A]
                    exact he0
            · rw [endStream_not_host st sid (by simpa using hh)]
              exact ⟨hnb, e0, he0, hh0⟩
  | leave sid =>
      show OrphanInv (viewerLeaveStream st sid).1 A c
      cases hcur : (getConn st sid).currentStreamId with
      | none =>
          rw [leaveStream_no_cur st sid hcur]
          exact ⟨hnb, e0, he0, hh0⟩
      | some S =>
          by_cases hSe : S = ""
          · subst hSe
            rw [leaveStream_empty_cur st sid hcur]
            exact ⟨hnb, e0, he0, hh0⟩
          · cases hS : alookup st.streams S with
            | none =>
                rw [leaveStream_missing st sid S hcur hSe hS]
                constructor
                · intro v
                  rw [getConn_aset]
                  by_cases hsv : sid = v
                  · rw [if_pos hsv]
                    exact hnb sid
                  · rw [if_neg hsv]
                    exact hnb v
                · exact ⟨e0, he0, hh0⟩
            | some strS =>
                rw [leaveStream_spec st sid S strS hcur hSe hS]
                constructor
                · intro v
                  rw [getConn_aset]
                  by_cases hsv : sid = v
                  · rw [if_pos hsv]
                    exact hnb sid
                  · rw [if_neg hsv]
                    exact hnb v
                · by_cases hSA : S = A
                  · subst hSA
                    rw [hS] at he0
                    have hse : strS = e0 := Option.some.inj he0
                    refine ⟨{ strS with viewers := aerase strS.viewers sid }, ?_, ?_⟩
                    · rw [alookup_aset, if_pos rfl]
                    · show strS.hostId = c
                      rw [hse]
                      exact hh0
                  · refine ⟨e0, ?_, hh0⟩
                    rw [alookup_aset, if_neg hSA]
                    exact he0
  | join sid p =>
      show OrphanInv (viewerJoinStream st sid p).1 A c
      cases hstr : alookup st.streams p.streamId with
      | none =>
          rw [joinStream_notFound st sid p hstr]
          exact ⟨hnb, e0, he0, hh0⟩
      | some str =>
          cases hcur : (getConn st sid).currentStreamId with
          | none =>
              rw [joinStream_fresh st sid p str hstr hcur]
              exact orphanInv_attach st.streams st.sockets sid p.streamId A c str _ _
                rfl hnb ⟨e0, he0, hh0⟩ hstr
          | some old =>
              by_cases hoemp : old = ""
              · subst hoemp
                rw [joinStream_cur_empty st sid p str hstr hcur]
                exact orphanInv_attach st.streams st.sockets sid p.streamId A c str _ _
                  rfl hnb ⟨e0, he0, hh0⟩ hstr
              · by_cases hoe : old = p.streamId
                · subst hoe
                  rw [joinStream_rejoin st sid p str hstr hcur]
                  exact orphanInv_attach st.streams st.sockets sid p.streamId A c str _ _
                    rfl hnb ⟨e0, he0, hh0⟩ hstr
                · cases hold : alookup st.streams old with
                  | none =>
                      rw [joinStream_switch_missing st sid p str old hstr hcur hoemp hoe hold]
                      exact orphanInv_attach st.streams st.sockets sid p.streamId A c str _ _
                        rfl hnb ⟨e0, he0, hh0⟩ hstr
                  | some oldStream =>
                      rw [joinStream_switch st sid p str oldStream old hstr hcur hoemp hoe hold]
                      have hA2 : ∃ e', alookup
                          (aset st.streams old
                            ({ oldStream with viewers := aerase oldStream.viewers sid })) A =
                          some e' ∧ e'.hostId = c := by
                        by_cases hOA : old = A
                        · subst hOA
                          rw [hold] at he0
                          have hse : oldStream = e0 := Option.some.inj he0
                          refine ⟨{ oldStream with viewers := aerase oldStream.viewers sid },
                            ?_, ?_⟩
                          · rw [alookup_aset, if_pos rfl]
                          · show oldStream.hostId = c
                            rw [hse]
                            exact hh0
                        · refine ⟨e0, ?_, hh0⟩
                          rw [alookup_aset, if_neg hOA]
                          exact he0
                      have hP2 : alookup
                          (aset st.streams old
                            ({ oldStream with viewers := aerase oldStream.viewers sid }))
                          p.streamId = some str := by
                        rw [alookup_aset, if_neg hoe]
                        exact hstr
                      exact orphanInv_attach
                        (aset st.streams old
                          ({ oldStream with viewers := aerase oldStream.viewers sid }))
                        st.sockets sid p.streamId A c str _ _ rfl hnb hA2 hP2
  | disconnect sid =>
      refine ⟨?_, ?_⟩
      · intro v
        exact hnb v
      · exact viewerCleanup_entry_preserved _ sid (getConn st sid) A c
          (hostCleanup_entry_preserved st.streams (getConn st sid) A c
            (hnb sid) ⟨e0, he0, hh0⟩)

theorem orphanInv_runFrom (A c : String) (ops : List Op) :
    ∀ st, (∀ op ∈ ops, op.nonCreate = true) → OrphanInv st A c →
      OrphanInv (runFrom st ops) A c := by
  induction ops with
  | nil =>
      intro st _ h
      exact h
  | cons op rest ih =>
      intro st hops h
      exact ih (applyOp st op).1 (fun o ho => hops o (List.mem_cons_of_mem _ ho))
        (orphanInv_step st A c op (hops op (List.mem_cons_self _ _)) h)

/-- C10 counterexample: `h2` creates stream `a`; `h1` overwrites `a`
(the last-writer-wins create leaves `h2`'s stale host binding in place)
and then creates `b`.  At that point `h1` is the connection recorded as
`a`'s host and has just been rebound to `b` — yet `h2`'s end-stream
request deletes `a`, so an end-stream by another connection does remove
the supposedly indefinite stream, refuting the claim as stated. -/
theorem c10_counterexample :
    alookup (run overwriteOps).streams "a" =
      some { hostId := "h1", title := "a", viewers := [] } ∧
    (getConn (run overwriteOps) "h1").streamId = some "b" ∧
    (getConn (run overwriteOps) "h2").streamId = some "a" ∧
    alookup (endStream (run overwriteOps) "h2").1.streams "a" = none := by decide

/-- C10 (amended): a connection hosting stream `A` that creates a
different stream `B` leaves `A` in the registry still recording it as
host, while its own binding is rebound to `B`; provided no other
connection's host binding names `A` (an earlier last-writer-wins
overwrite can leave a stale binding whose end-stream or disconnect
still deletes `A` — see the counterexample), no sequence of end-stream,
join, leave or disconnect events by any connection removes `A`, whose
entry keeps its host id. -/
theorem c10_second_create_orphans_first (st : ServerState) (hconn A : String)
    (e : StreamEntry) (p : CreatePayload) (ops : List Op)
    (hstr : alookup st.streams A = some e)
    (hhost : e.hostId = hconn)
    (hbound : (getConn st hconn).streamId = some A)
    (honly : ∀ q ∈ st.sockets, q.2.streamId = some A → q.1 = hconn)
    (hne : p.streamId ≠ "")
    (hdiff : jsTrim p.streamId ≠ A)
    (hops : ∀ op ∈ ops, op.nonCreate = true) :
    alookup (createStream st hconn p).1.streams A = some e ∧
    (getConn (createStream st hconn p).1 hconn).streamId = some (jsTrim p.streamId) ∧
    ∃ e', alookup (runFrom (createStream st hconn p).1 ops).streams A = some e' ∧
      e'.hostId = hconn := by
  have hkeep : alookup (createStream st hconn p).1.streams A = some e := by
    rw [createStream_spec st hconn p hne]
    simp only [alookup_aset]
    rw [if_neg hdiff]
    exact hstr
  have hrebound : (getConn (createStream st hconn p).1 hconn).streamId =
      some (jsTrim p.streamId) := by
    rw [createStream_spec st hconn p hne]
    rw [getConn_aset, if_pos rfl]
  refine ⟨hkeep, hrebound, ?_⟩
  have hinv : OrphanInv (createStream st hconn p).1 A hconn := by
    constructor
    · intro v
      rw [createStream_spec st hconn p hne]
      rw [getConn_aset]
      by_cases hsv : hconn = v
      · rw [if_pos hsv]
        intro hEq
        exact hdiff (Option.some.inj hEq)
      · rw [if_neg hsv]
        cases hq : alookup st.sockets v with
        | none => simp
        | some conn =>
            intro hEq
            exact hsv (honly (v, conn) (alookup_mem st.sockets v conn hq) hEq).symm
    · exact ⟨e, hkeep, hhost⟩
  exact (orphanInv_runFrom A hconn ops (createStream st hconn p).1 hops hinv).2

/-- Witness for C10's theorem at the concrete one-create state with a
four-event create-free tail. -/
theorem c10_second_create_orphans_first_witness :
    (alookup (run createAOps).streams "a" =
       some { hostId := "h", title := "a", viewers := [] } ∧
     StreamEntry.hostId { hostId := "h", title := "a", viewers := [] } = "h" ∧
     (getConn (run createAOps) "h").streamId = some "a" ∧
     (∀ q ∈ (run createAOps).sockets, q.2.streamId = some "a" → q.1 = "h") ∧
     ("b" : String) ≠ "" ∧
     jsTrim "b" ≠ "a" ∧
     (∀ op ∈ orphanTailOps, op.nonCreate = true)) ∧
    alookup (createStream (run createAOps) "h"
      { streamId := "b", title := none }).1.streams "a" =
      some { hostId := "h", title := "a", viewers := [] } ∧
    ∃ e', alookup (runFrom (createStream (run createAOps) "h"
        { streamId := "b", title := none }).1 orphanTailOps).streams "a" = some e' ∧
      e'.hostId = "h" := by
  have hc := c10_second_create_orphans_first (run createAOps) "h" "a"
    { hostId := "h", title := "a", viewers := [] } { streamId := "b", title := none }
    orphanTailOps (by decide) (by decide) (by decide) (by decide) (by decide)
    (by decide) (by decide)
  exact ⟨⟨by decide, by decide, by decide, by decide, by decide, by decide, by decide⟩,
    hc.1, hc.2.2⟩

end WebRTCRelay
